import Mathlib

/-!
Verification of the trailer-addon service against its specification.

The repository has three near-duplicate variants of the same Express
service:
  * a YouTube-search variant (server.js, first document),
  * an Invidious-loop variant (server.js, second document): the stream
    handler loops over four Invidious instances sequentially, awaiting
    each request (timeout 5000 ms) before the next, picks per instance
    the first format stream whose quality is exactly "720p", "480p" or
    "360p", and breaks out of the loop as soon as a 720p stream is
    pushed;
  * a Piped variant (unnamed/part_000): the stream handler builds a
    fixed array of three proxy-URL stream entries, fans out to three
    Piped mirrors with Promise.allSettled, and overwrites the url of
    the k-th entry with the HD url of the k-th fulfilled-and-valid
    response.

Every definition below is a shallow embedding of one of these code
paths; outbound HTTP calls are modelled by passing their (per-request)
results as explicit arguments.
-/

/-- JavaScript truthiness of a string-or-null value: null and the empty
string are falsy.  Models checks such as `if (!tmdbId)` and
`if (!videoId)` in both stream handlers. -/
def jsTruthy : Option String → Bool
  | none => false
  | some s => s != ""

/-- JavaScript `s.replace(pat, repl)` with a string pattern replaces only
the first occurrence.  Models `id.replace("tmdb:", "")`. -/
def replaceFirst (s pat repl : String) : String :=
  match s.splitOn pat with
  | [] => s
  | [x] => x
  | x :: y :: rest => x ++ repl ++ String.intercalate pat (y :: rest)

/-- JavaScript `s.includes(pat)`: substring containment, via splitOn
(the pattern occurs in s iff splitting on it yields more than one
piece; the patterns used here are nonempty). -/
def strContains (s pat : String) : Bool :=
  (s.splitOn pat).length != 1

/-- JavaScript `s.startsWith(pre)`: the first characters of s are
exactly pre. -/
def strStartsWith (s pre : String) : Bool :=
  s.toList.take pre.toList.length == pre.toList

/-- Result of a stream request handler: a client error response
(`res.status(400).json({ error: msg })`), a server error response
(`res.status(500).json({ error: msg, ... })`) — neither of which
carries a streams field — or a success response `res.json({ streams })`
carrying the stream array. -/
inductive HandlerResult (α : Type) where
  | badRequest (msg : String)
  | serverError (msg : String)
  | ok (streams : List α)
deriving Repr, DecidableEq

namespace Tmdb

/-- One entry of the TMDB `movie/{id}/videos` response, as read by
`getTrailerFromTmdb`: fields `type`, `site`, `official`, `name`, `key`. -/
structure Video where
  type : String
  site : String
  official : Bool
  name : String
  key : String
deriving Repr, DecidableEq

/-- The first find predicate of `getTrailerFromTmdb`:
`video.type === "Trailer" && video.site === "YouTube" &&
(video.official || video.name.toLowerCase().includes("official"))`. -/
def isOfficialTrailer (v : Video) : Bool :=
  v.type == "Trailer" && v.site == "YouTube" &&
    (v.official || strContains v.name.toLower "official")

/-- The second find predicate of `getTrailerFromTmdb`:
`video.type === "Trailer" && video.site === "YouTube"`. -/
def isTrailer (v : Video) : Bool :=
  v.type == "Trailer" && v.site == "YouTube"

/-- Selection logic of `getTrailerFromTmdb` (identical in server.js and
part_000) applied to the `results` list of the videos endpoint: first
`find` an official trailer and return its key; if there is none, `find`
any YouTube trailer and return its key; otherwise return null. -/
def getTrailerFromTmdb (results : List Video) : Option String :=
  match results.find? isOfficialTrailer with
  | some trailer => some trailer.key
  | none =>
    match results.find? isTrailer with
    | some anyTrailer => some anyTrailer.key
    | none => none

/-- Whole-call result of `getTrailerFromTmdb`: the HTTP fetch of the
videos endpoint may fail (caught, returning null), modelled by an
optional results list. -/
def getTrailerResult (videosResp : Option (List Video)) : Option String :=
  match videosResp with
  | none => none
  | some results => getTrailerFromTmdb results

theorem official_implies_trailer (v : Video) (h : isOfficialTrailer v = true) :
    isTrailer v = true := by
  simp only [isOfficialTrailer, Bool.and_eq_true] at h
  simp [isTrailer, Bool.and_eq_true, h.1.1, h.1.2]

end Tmdb

/-- C5: the Trailer Locator selects a YouTube trailer-tagged entry that is
marked official or whose name contains "official" case-insensitively
whenever such an entry exists; only when none exists does it select any
YouTube trailer-tagged entry, and it returns None when no trailer-tagged
entry exists at all. -/
theorem c5_trailer_selection (results : List Tmdb.Video) :
    ((∃ v, v ∈ results ∧ Tmdb.isOfficialTrailer v = true) →
      ∃ v, v ∈ results ∧ Tmdb.isOfficialTrailer v = true ∧
        Tmdb.getTrailerFromTmdb results = some v.key) ∧
    ((∀ v, v ∈ results → Tmdb.isOfficialTrailer v = false) →
      (∃ v, v ∈ results ∧ Tmdb.isTrailer v = true) →
      ∃ v, v ∈ results ∧ Tmdb.isTrailer v = true ∧
        Tmdb.getTrailerFromTmdb results = some v.key) ∧
    ((∀ v, v ∈ results → Tmdb.isTrailer v = false) →
      Tmdb.getTrailerFromTmdb results = none) := by
  refine ⟨?_, ?_, ?_⟩
  · rintro ⟨v, hv, hpv⟩
    have hsome : (results.find? Tmdb.isOfficialTrailer).isSome := by
      rw [List.find?_isSome]
      exact ⟨v, hv, hpv⟩
    obtain ⟨w, hw⟩ := Option.isSome_iff_exists.mp hsome
    refine ⟨w, List.mem_of_find?_eq_some hw, List.find?_some hw, ?_⟩
    simp [Tmdb.getTrailerFromTmdb, hw]
  · rintro hnone ⟨v, hv, hqv⟩
    have hfnone : results.find? Tmdb.isOfficialTrailer = none := by
      rw [List.find?_eq_none]
      intro a ha
      simp [hnone a ha]
    have hsome : (results.find? Tmdb.isTrailer).isSome := by
      rw [List.find?_isSome]
      exact ⟨v, hv, hqv⟩
    obtain ⟨w, hw⟩ := Option.isSome_iff_exists.mp hsome
    refine ⟨w, List.mem_of_find?_eq_some hw, List.find?_some hw, ?_⟩
    simp [Tmdb.getTrailerFromTmdb, hfnone, hw]
  · intro hnone
    have hfnone : results.find? Tmdb.isOfficialTrailer = none := by
      rw [List.find?_eq_none]
      intro a ha hpa
      have := Tmdb.official_implies_trailer a hpa
      simp [hnone a ha] at this
    have hqnone : results.find? Tmdb.isTrailer = none := by
      rw [List.find?_eq_none]
      intro a ha
      simp [hnone a ha]
    simp [Tmdb.getTrailerFromTmdb, hfnone, hqnone]

namespace Invidious

/-- One entry of an Invidious `formatStreams` array: the fields `quality`
and `url` read by the loop. -/
structure FormatStream where
  quality : String
  url : String
deriving Repr, DecidableEq

/-- Outcome of the awaited `axios.get` for one instance:
`failure` covers a thrown error, a timeout, or a non-200 status (the
per-instance catch continues the loop); `ok none` covers a 200 response
whose data or `formatStreams` field is falsy; `ok (some fs)` a 200
response carrying a `formatStreams` array. -/
inductive BackendOutcome where
  | failure
  | ok (formatStreams : Option (List FormatStream))
deriving Repr, DecidableEq

/-- The find predicate of the loop:
`f.quality === "720p" || f.quality === "480p" || f.quality === "360p"`. -/
def accepted (f : FormatStream) : Bool :=
  f.quality == "720p" || f.quality == "480p" || f.quality == "360p"

/-- `response.data.formatStreams.find(...)`: the first format whose
quality label is exactly 720p, 480p or 360p. -/
def selectFormat (fs : List FormatStream) : Option FormatStream :=
  fs.find? accepted

/-- Hints object pushed by the loop:
`{ notWebReady: true, bingeGroup: "trailer" }`. -/
structure BehaviorHints where
  notWebReady : Bool
  bingeGroup : String
deriving Repr, DecidableEq

/-- The stream object pushed by the loop (name, title, url, type,
source, behaviorHints). -/
structure StreamDescriptor where
  name : String
  title : String
  url : String
  type : String
  source : String
  behaviorHints : BehaviorHints
deriving Repr, DecidableEq

/-- The object literal pushed for a selected format `f`:
name `Trailer (quality)`, title `Official Trailer`, the format url,
type `trailer`, source `youtube`, and the fixed hints. -/
def mkStream (f : FormatStream) : StreamDescriptor :=
  { name := "Trailer (" ++ f.quality ++ ")"
    title := "Official Trailer"
    url := f.url
    type := "trailer"
    source := "youtube"
    behaviorHints := { notWebReady := true, bingeGroup := "trailer" } }

/-- What one loop iteration pushes for the given backend outcome:
nothing on failure, falsy data, no matching format, or a falsy format
url (`if (format && format.url)`); otherwise the stream built from the
first accepted format. -/
def stepResult (o : BackendOutcome) : Option StreamDescriptor :=
  match o with
  | .failure => none
  | .ok none => none
  | .ok (some fs) =>
    match selectFormat fs with
    | none => none
    | some f => if f.url != "" then some (mkStream f) else none

/-- Whether the iteration for this outcome executes the `break`:
a stream was pushed (`format && format.url`) and
`format.quality === "720p"`. -/
def breaksAt (o : BackendOutcome) : Bool :=
  match o with
  | .failure => false
  | .ok none => false
  | .ok (some fs) =>
    match selectFormat fs with
    | none => false
    | some f => f.url != "" && f.quality == "720p"

/-- Whether this outcome contributes a pushed stream. -/
def contributes (o : BackendOutcome) : Bool :=
  (stepResult o).isSome

/-- The `streams` array accumulated by the sequential
`for (const instance of instances)` loop, given the outcome of each
instance request in declaration order: each iteration pushes at most
one stream and the loop breaks right after pushing a 720p stream. -/
def invidiousLoop : List BackendOutcome → List StreamDescriptor
  | [] => []
  | o :: rest =>
    match stepResult o with
    | none => invidiousLoop rest
    | some s => if breaksAt o then [s] else s :: invidiousLoop rest

/-- How many instances the loop actually requests: one `axios.get` per
iteration entered, and iterations stop after a `break`. -/
def invidiousQueriedCount : List BackendOutcome → Nat
  | [] => 0
  | o :: rest => 1 + (if breaksAt o then 0 else invidiousQueriedCount rest)

/-- Elapsed-time model of the sequential loop: each iteration awaits its
request to completion (response, error, or the 5000 ms timeout) before
the next iteration starts, so the loop's total duration is the sum of
the per-instance elapsed times over the iterations entered.  Each
outcome is paired with the time its awaited request took (at most the
5000 ms timeout when it timed out). -/
def invidiousElapsed : List (BackendOutcome × Nat) → Nat
  | [] => 0
  | (o, t) :: rest => t + (if breaksAt o then 0 else invidiousElapsed rest)

theorem stepResult_eq_some {o : BackendOutcome} {s : StreamDescriptor}
    (h : stepResult o = some s) :
    ∃ fs f, o = BackendOutcome.ok (some fs) ∧ selectFormat fs = some f ∧
      (f.url != "") = true ∧ s = mkStream f := by
  match o with
  | .failure => simp [stepResult] at h
  | .ok none => simp [stepResult] at h
  | .ok (some fs) =>
    match hsel : selectFormat fs with
    | none => simp [stepResult, hsel] at h
    | some f =>
      simp only [stepResult, hsel] at h
      by_cases hu : (f.url != "") = true
      · rw [if_pos hu] at h
        exact ⟨fs, f, rfl, hsel, hu, (Option.some_inj.mp h).symm⟩
      · rw [if_neg hu] at h
        simp at h

theorem invidiousLoop_eq_nil_of_none {l : List BackendOutcome}
    (h : (l.all fun o => !(contributes o)) = true) : invidiousLoop l = [] := by
  induction l with
  | nil => rfl
  | cons o rest ih =>
    rw [List.all_cons, Bool.and_eq_true] at h
    have hstep : stepResult o = none := by
      have := h.1
      simp only [contributes, Bool.not_eq_true'] at this
      exact Option.not_isSome_iff_eq_none.mp (by simp [this])
    simp [invidiousLoop, hstep, ih h.2]

theorem invidiousLoop_append_of_noBreak {l1 : List BackendOutcome}
    (l2 : List BackendOutcome)
    (h : (l1.all fun o => !(breaksAt o)) = true) :
    invidiousLoop (l1 ++ l2) = invidiousLoop l1 ++ invidiousLoop l2 := by
  induction l1 with
  | nil => simp [invidiousLoop]
  | cons o rest ih =>
    rw [List.all_cons, Bool.and_eq_true] at h
    have hb : breaksAt o = false := by
      have := h.1
      simpa using this
    match hstep : stepResult o with
    | none => simp [invidiousLoop, hstep, ih h.2]
    | some s => simp [invidiousLoop, hstep, hb, ih h.2]

theorem queriedCount_eq_length_of_noBreak {l : List BackendOutcome}
    (h : (l.all fun o => !(breaksAt o)) = true) :
    invidiousQueriedCount l = l.length := by
  induction l with
  | nil => rfl
  | cons o rest ih =>
    rw [List.all_cons, Bool.and_eq_true] at h
    have hb : breaksAt o = false := by simpa using h.1
    simp [invidiousQueriedCount, hb, ih h.2, Nat.add_comm]

theorem queriedCount_append_break (l1 : List BackendOutcome)
    (o : BackendOutcome) (l2 : List BackendOutcome)
    (h1 : (l1.all fun x => !(breaksAt x)) = true) (hb : breaksAt o = true) :
    invidiousQueriedCount (l1 ++ o :: l2) = l1.length + 1 := by
  induction l1 with
  | nil => simp [invidiousQueriedCount, hb]
  | cons x xs ih =>
    rw [List.all_cons, Bool.and_eq_true] at h1
    have hx : breaksAt x = false := by simpa using h1.1
    simp [invidiousQueriedCount, hx, ih h1.2]
    omega

end Invidious

/-- C10: in the Invidious-loop variant, a backend format stream is pushed
into the output only when its quality label is exactly "720p", "480p" or
"360p"; a stream whose label is any other string, including "1080p", is
never selected from any backend response. -/
theorem c10_quality_whitelist (l : List Invidious.BackendOutcome) :
    (∀ s, s ∈ Invidious.invidiousLoop l →
      ∃ fs f, Invidious.BackendOutcome.ok (some fs) ∈ l ∧ f ∈ fs ∧
        (f.quality = "720p" ∨ f.quality = "480p" ∨ f.quality = "360p") ∧
        s = Invidious.mkStream f) ∧
    Invidious.invidiousLoop
        [Invidious.BackendOutcome.ok (some [⟨"1080p", "https://x/1080.mp4"⟩])] =
      [] := by
  refine ⟨?_, by decide⟩
  induction l with
  | nil => intro s hs; simp [Invidious.invidiousLoop] at hs
  | cons o rest ih =>
    intro s hs
    match hstep : Invidious.stepResult o with
    | none =>
      simp only [Invidious.invidiousLoop, hstep] at hs
      obtain ⟨fs, f, hmem, hf, hq, hsf⟩ := ih s hs
      exact ⟨fs, f, List.mem_cons_of_mem _ hmem, hf, hq, hsf⟩
    | some s2 =>
      obtain ⟨fs, f, ho, hsel, hu, hs2⟩ := Invidious.stepResult_eq_some hstep
      have hsel2 : fs.find? Invidious.accepted = some f := hsel
      have hacc : Invidious.accepted f = true := List.find?_some hsel2
      have hq : f.quality = "720p" ∨ f.quality = "480p" ∨ f.quality = "360p" := by
        simpa [Invidious.accepted, Bool.or_eq_true, beq_iff_eq, or_assoc]
          using hacc
      have hffs : f ∈ fs := List.mem_of_find?_eq_some hsel2
      have hoMem : Invidious.BackendOutcome.ok (some fs) ∈ o :: rest := by
        rw [← ho]; exact List.mem_cons_self o rest
      by_cases hb : Invidious.breaksAt o = true
      · simp only [Invidious.invidiousLoop, hstep, hb, if_true,
          List.mem_singleton] at hs
        exact ⟨fs, f, hoMem, hffs, hq, hs.trans hs2⟩
      · simp only [Invidious.invidiousLoop, hstep, hb, if_false,
          Bool.false_eq_true, List.mem_cons] at hs
        cases hs with
        | inl h => exact ⟨fs, f, hoMem, hffs, hq, h.trans hs2⟩
        | inr h =>
          obtain ⟨fs2, f2, hmem, hf2, hq2, hsf2⟩ := ih s h
          exact ⟨fs2, f2, List.mem_cons_of_mem _ hmem, hf2, hq2, hsf2⟩

/-- C1 counterexample: with two configured instances where the first
already yields a usable 720p stream, the loop breaks and only one of the
two instances is ever requested, so the resolver does not issue a
request to every configured backend. -/
theorem c1_counterexample :
    Invidious.invidiousQueriedCount
        [Invidious.BackendOutcome.ok (some [⟨"720p", "https://a/720.mp4"⟩]),
         Invidious.BackendOutcome.ok (some [⟨"480p", "https://b/480.mp4"⟩])] = 1 ∧
    ([Invidious.BackendOutcome.ok (some [⟨"720p", "https://a/720.mp4"⟩]),
      Invidious.BackendOutcome.ok (some [⟨"480p", "https://b/480.mp4"⟩])] :
        List Invidious.BackendOutcome).length = 2 := by
  decide

/-- C1 amended: the Invidious-loop variant queries the configured
backends sequentially and stops querying the remaining ones exactly when
a backend yields a usable 720p stream; when no backend yields a usable
720p stream, every configured backend is queried. -/
theorem c1_amended_break_on_720p (l : List Invidious.BackendOutcome) :
    ((l.all fun o => !(Invidious.breaksAt o)) = true →
      Invidious.invidiousQueriedCount l = l.length) ∧
    (∀ l1 o l2, l = l1 ++ o :: l2 →
      (l1.all fun x => !(Invidious.breaksAt x)) = true →
      Invidious.breaksAt o = true →
      Invidious.invidiousQueriedCount l = l1.length + 1) := by
  refine ⟨fun h => Invidious.queriedCount_eq_length_of_noBreak h, ?_⟩
  rintro l1 o l2 rfl h1 hb
  exact Invidious.queriedCount_append_break l1 o l2 h1 hb

/-- C2 counterexample: one backend responds with format streams of
qualities [360p, 720p, 480p]; the code pushes only the first acceptable
format, 360p, so the output is the single 360p stream rather than the
claimed descending order [720p, 480p, 360p]. -/
theorem c2_counterexample :
    Invidious.invidiousLoop
        [Invidious.BackendOutcome.ok (some
          [⟨"360p", "https://a/360.mp4"⟩, ⟨"720p", "https://a/720.mp4"⟩,
           ⟨"480p", "https://a/480.mp4"⟩])] =
      [Invidious.mkStream ⟨"360p", "https://a/360.mp4"⟩] ∧
    (Invidious.invidiousLoop
        [Invidious.BackendOutcome.ok (some
          [⟨"360p", "https://a/360.mp4"⟩, ⟨"720p", "https://a/720.mp4"⟩,
           ⟨"480p", "https://a/480.mp4"⟩])]).map (fun s => s.name) ≠
      ["Trailer (720p)", "Trailer (480p)", "Trailer (360p)"] := by
  decide

/-- C2 amended: the output list is not sorted by parsed quality; each
backend contributes at most its first format whose quality label is
exactly 720p, 480p or 360p, and the output preserves backend response
order (stopping after a 720p push); in particular for input qualities
[360p, 720p, 480p] in one backend response the output is the single
stream "Trailer (360p)". -/
theorem c2_amended_backend_order (l1 l2 : List Invidious.BackendOutcome) :
    Invidious.invidiousLoop
        [Invidious.BackendOutcome.ok (some
          [⟨"360p", "https://a/360.mp4"⟩, ⟨"720p", "https://a/720.mp4"⟩,
           ⟨"480p", "https://a/480.mp4"⟩])] =
      [Invidious.mkStream ⟨"360p", "https://a/360.mp4"⟩] ∧
    ((l1.all fun o => !(Invidious.breaksAt o)) = true →
      Invidious.invidiousLoop (l1 ++ l2) =
        Invidious.invidiousLoop l1 ++ Invidious.invidiousLoop l2) :=
  ⟨by decide, fun h => Invidious.invidiousLoop_append_of_noBreak l2 h⟩

/-- C4 counterexample: backend A times out after its full 5000 ms
timeout and backend B then returns a valid 480p candidate after 1000 ms;
resolution does succeed with B's candidate, but because the loop awaits
the backends sequentially the total duration is 5000 + 1000 ms, which is
not bounded by the larger of the two per-backend timeouts (5000 ms). -/
theorem c4_counterexample :
    Invidious.invidiousLoop
        [Invidious.BackendOutcome.failure,
         Invidious.BackendOutcome.ok (some [⟨"480p", "https://b/480.mp4"⟩])] =
      [Invidious.mkStream ⟨"480p", "https://b/480.mp4"⟩] ∧
    Invidious.invidiousElapsed
        [(Invidious.BackendOutcome.failure, 5000),
         (Invidious.BackendOutcome.ok (some [⟨"480p", "https://b/480.mp4"⟩]),
          1000)] = 5000 + 1000 ∧
    ¬ (Invidious.invidiousElapsed
        [(Invidious.BackendOutcome.failure, 5000),
         (Invidious.BackendOutcome.ok (some [⟨"480p", "https://b/480.mp4"⟩]),
          1000)] ≤ 5000) := by
  decide

/-- C4 amended: when backend A fails or times out and backend B returns
an acceptable candidate, the resolution completes successfully using B's
candidate, but the call's total duration is the sum of the elapsed times
of the two sequentially awaited backends (A's full timeout plus B's
response time), not the maximum of the per-backend timeouts. -/
theorem c4_amended_sequential_duration (tA tB : Nat)
    (fs : List Invidious.FormatStream) (f : Invidious.FormatStream)
    (hsel : Invidious.selectFormat fs = some f) (hurl : f.url ≠ "") :
    Invidious.invidiousLoop
        [Invidious.BackendOutcome.failure,
         Invidious.BackendOutcome.ok (some fs)] = [Invidious.mkStream f] ∧
    Invidious.invidiousElapsed
        [(Invidious.BackendOutcome.failure, tA),
         (Invidious.BackendOutcome.ok (some fs), tB)] = tA + tB := by
  have hu : (f.url != "") = true := bne_iff_ne.mpr hurl
  have hstep : Invidious.stepResult (Invidious.BackendOutcome.ok (some fs)) =
      some (Invidious.mkStream f) := by
    simp [Invidious.stepResult, hsel, hu]
  constructor
  · simp [Invidious.invidiousLoop, Invidious.stepResult, hsel, hurl]
  · simp [Invidious.invidiousElapsed, Invidious.breaksAt]

/-- Witness for C4 amended: backend A times out at 5000 ms, backend B
returns one valid 480p candidate after 1000 ms; the call returns B's
stream and the duration is 6000 ms. -/
theorem c4_amended_sequential_duration_witness :
    Invidious.invidiousLoop
        [Invidious.BackendOutcome.failure,
         Invidious.BackendOutcome.ok (some [⟨"480p", "https://mirror.example/480.mp4"⟩])] =
      [Invidious.mkStream ⟨"480p", "https://mirror.example/480.mp4"⟩] ∧
    Invidious.invidiousElapsed
        [(Invidious.BackendOutcome.failure, 5000),
         (Invidious.BackendOutcome.ok
            (some [⟨"480p", "https://mirror.example/480.mp4"⟩]), 1000)] =
      5000 + 1000 :=
  c4_amended_sequential_duration 5000 1000
    [⟨"480p", "https://mirror.example/480.mp4"⟩]
    ⟨"480p", "https://mirror.example/480.mp4"⟩ (by decide) (by decide)

/-- C7 counterexample: a backend offers a single 480p format whose URL
uses plain http; the loop selects it and the output carries the
non-HTTPS URL unchanged, so no insecure-scheme filtering happens. -/
theorem c7_counterexample :
    Invidious.invidiousLoop
        [Invidious.BackendOutcome.ok
          (some [⟨"480p", "http://insecure.example/t.mp4"⟩])] =
      [Invidious.mkStream ⟨"480p", "http://insecure.example/t.mp4"⟩] ∧
    "http://insecure.example/t.mp4".toList.take 8 ≠ "https://".toList := by
  decide

/-- C7 amended: the filtering step checks only that the quality label is
exactly 720p, 480p or 360p and that the URL is nonempty; the URL scheme
is never inspected, so a candidate with a non-HTTPS URL is selected and
its URL appears in an output StreamDescriptor unchanged. -/
theorem c7_amended_no_scheme_filter (q u : String)
    (hq : q = "720p" ∨ q = "480p" ∨ q = "360p") (hu : u ≠ "") :
    Invidious.invidiousLoop [Invidious.BackendOutcome.ok (some [⟨q, u⟩])] =
      [Invidious.mkStream ⟨q, u⟩] := by
  have hacc : Invidious.accepted ⟨q, u⟩ = true := by
    rcases hq with h | h | h <;> simp [Invidious.accepted, h]
  have hsel : Invidious.selectFormat [⟨q, u⟩] = some ⟨q, u⟩ :=
    List.find?_cons_of_pos _ hacc
  have hu2 : (u != "") = true := bne_iff_ne.mpr hu
  simp [Invidious.invidiousLoop, Invidious.stepResult, hsel, hu2]

/-- Witness for C7 amended: a 480p candidate with a plain-http URL is
selected and emitted. -/
theorem c7_amended_no_scheme_filter_witness :
    Invidious.invidiousLoop
        [Invidious.BackendOutcome.ok (some [⟨"480p", "http://plain.example/v.mp4"⟩])] =
      [Invidious.mkStream ⟨"480p", "http://plain.example/v.mp4"⟩] :=
  c7_amended_no_scheme_filter "480p" "http://plain.example/v.mp4"
    (Or.inr (Or.inl rfl)) (by decide)

namespace Piped

/-- One entry of a Piped `videoStreams` array: the fields `quality` and
`url` read by the direct-URL replacement. -/
structure VideoStream where
  quality : String
  url : String
deriving Repr, DecidableEq

/-- Payload of a fulfilled-and-valid Piped response: the predicate
`r.status === "fulfilled" && r.value.data && r.value.data.videoStreams`
requires a `videoStreams` field, modelled by this structure. -/
structure PipedData where
  videoStreams : List VideoStream
deriving Repr, DecidableEq

/-- Hints object of every entry of the fixed streams array:
`{ notWebReady: true, bingeGroup: "trailer", ios_supports: true }`. -/
structure BehaviorHints where
  notWebReady : Bool
  bingeGroup : String
  ios_supports : Bool
deriving Repr, DecidableEq

/-- One entry of the `streams` array of the Piped variant. -/
structure StreamDescriptor where
  name : String
  title : String
  url : String
  type : String
  source : String
  behaviorHints : BehaviorHints
deriving Repr, DecidableEq

/-- The hints literal shared by all three entries. -/
def pipedHints : BehaviorHints :=
  { notWebReady := true, bingeGroup := "trailer", ios_supports := true }

/-- The fixed three-element `streams` array built from the videoId
before any backend response arrives: three proxy-service URLs. -/
def defaultStreams (videoId : String) : List StreamDescriptor :=
  [{ name := "Trailer (HD)", title := "Trailer HD",
     url := "https://pipedapi.kavin.rocks/streams/" ++ videoId,
     type := "trailer", source := "youtube", behaviorHints := pipedHints },
   { name := "Trailer (Alternative)", title := "Trailer",
     url := "https://api.piped.projectsegfau.lt/streams/" ++ videoId,
     type := "trailer", source := "youtube", behaviorHints := pipedHints },
   { name := "Trailer (Backup)", title := "Trailer",
     url := "https://watchapi.whatever.social/streams/" ++ videoId,
     type := "trailer", source := "youtube", behaviorHints := pipedHints }]

/-- `response.videoStreams.find((s) => s.quality === "720p" ||
s.quality === "1080p")`. -/
def hdStream (d : PipedData) : Option VideoStream :=
  d.videoStreams.find? (fun s => s.quality == "720p" || s.quality == "1080p")

/-- `streams[index].url = u`: replace the url of the i-th entry, leaving
everything else unchanged (writing past the end changes nothing). -/
def setUrl : List StreamDescriptor → Nat → String → List StreamDescriptor
  | [], _, _ => []
  | s :: rest, 0, u => { s with url := u } :: rest
  | s :: rest, n + 1, u => s :: setUrl rest n u

/-- One step of `validResponses.forEach((response, index) => ...)`:
if the response has an HD video stream with a truthy url, overwrite
`streams[index].url` with it. -/
def stepData (ss : List StreamDescriptor) (i : Nat) (d : PipedData) :
    List StreamDescriptor :=
  match hdStream d with
  | some hd => if hd.url != "" then setUrl ss i hd.url else ss
  | none => ss

/-- The whole forEach over the valid responses, with `i` the index of
the first remaining response. -/
def applyDirectAux : List StreamDescriptor → Nat → List PipedData →
    List StreamDescriptor
  | ss, _, [] => ss
  | ss, i, d :: rest => applyDirectAux (stepData ss i d) (i + 1) rest

/-- The `validResponses` filter over the three allSettled results:
fulfilled responses whose data has a `videoStreams` field, in
declaration order of the three mirrors. -/
def validResponses (r1 r2 r3 : Option PipedData) : List PipedData :=
  [r1, r2, r3].filterMap id

/-- The final `streams` array of the Piped variant for a resolved
videoId, given the three (settled) mirror responses. -/
def pipedStreams (videoId : String) (r1 r2 r3 : Option PipedData) :
    List StreamDescriptor :=
  applyDirectAux (defaultStreams videoId) 0 (validResponses r1 r2 r3)

theorem setUrl_map_name (u : String) (ss : List StreamDescriptor) (i : Nat) :
    (setUrl ss i u).map (fun s => s.name) = ss.map (fun s => s.name) := by
  induction ss generalizing i with
  | nil => rfl
  | cons s rest ih =>
    cases i with
    | zero => rfl
    | succ n => simp [setUrl, ih n]

theorem stepData_map_name (ss : List StreamDescriptor) (i : Nat)
    (d : PipedData) :
    (stepData ss i d).map (fun s => s.name) = ss.map (fun s => s.name) := by
  unfold stepData
  cases hdStream d with
  | none => rfl
  | some hd =>
    by_cases hu : (hd.url != "") = true
    · simp [hu, setUrl_map_name]
    · simp [hu]

theorem applyDirectAux_map_name (valid : List PipedData) :
    ∀ (ss : List StreamDescriptor) (i : Nat),
      (applyDirectAux ss i valid).map (fun s => s.name) =
        ss.map (fun s => s.name) := by
  induction valid with
  | nil => intro ss i; rfl
  | cons d rest ih =>
    intro ss i
    rw [applyDirectAux, ih, stepData_map_name]

theorem setUrl_get?_ne (u : String) (ss : List StreamDescriptor) :
    ∀ (i j : Nat), i ≠ j → (setUrl ss i u).get? j = ss.get? j := by
  induction ss with
  | nil => intro i j _; rfl
  | cons s rest ih =>
    intro i j hij
    cases i with
    | zero =>
      cases j with
      | zero => exact absurd rfl hij
      | succ m => rfl
    | succ n =>
      cases j with
      | zero => rfl
      | succ m =>
        simpa [setUrl] using ih n m (fun h => hij (by rw [h]))

theorem setUrl_get?_eq (u : String) (ss : List StreamDescriptor) :
    ∀ i : Nat,
      (setUrl ss i u).get? i = (ss.get? i).map (fun s => { s with url := u }) := by
  induction ss with
  | nil => intro i; cases i <;> rfl
  | cons s rest ih =>
    intro i
    cases i with
    | zero => rfl
    | succ n => simpa [setUrl] using ih n

theorem stepData_get?_ne (ss : List StreamDescriptor) (i j : Nat)
    (d : PipedData) (hij : i ≠ j) :
    (stepData ss i d).get? j = ss.get? j := by
  unfold stepData
  cases hdStream d with
  | none => rfl
  | some hd =>
    show (if (hd.url != "") = true then setUrl ss i hd.url else ss).get? j =
      ss.get? j
    by_cases hu : (hd.url != "") = true
    · rw [if_pos hu]; exact setUrl_get?_ne _ _ _ _ hij
    · rw [if_neg hu]

theorem stepData_get?_push (ss : List StreamDescriptor) (i : Nat)
    (d : PipedData) (hd : VideoStream) (hhd : hdStream d = some hd)
    (hu : (hd.url != "") = true) :
    (stepData ss i d).get? i =
      (ss.get? i).map (fun s => { s with url := hd.url }) := by
  unfold stepData
  rw [hhd]
  show (if (hd.url != "") = true then setUrl ss i hd.url else ss).get? i = _
  rw [if_pos hu]
  exact setUrl_get?_eq _ _ i

theorem applyDirectAux_get?_lt (valid : List PipedData) :
    ∀ (ss : List StreamDescriptor) (i m : Nat), m < i →
      (applyDirectAux ss i valid).get? m = ss.get? m := by
  induction valid with
  | nil => intro ss i m _; rfl
  | cons d rest ih =>
    intro ss i m hm
    rw [applyDirectAux, ih _ (i + 1) m (Nat.lt_succ_of_lt hm)]
    exact stepData_get?_ne ss i m d (Nat.ne_of_gt hm)

theorem applyDirectAux_get?_assign (valid : List PipedData) :
    ∀ (ss : List StreamDescriptor) (i k : Nat) (d : PipedData)
      (hd : VideoStream),
      valid.get? k = some d → hdStream d = some hd → (hd.url != "") = true →
      (applyDirectAux ss i valid).get? (i + k) =
        (ss.get? (i + k)).map (fun s => { s with url := hd.url }) := by
  induction valid with
  | nil => intro ss i k d hd hk; simp at hk
  | cons d0 rest ih =>
    intro ss i k d hd hk hhd hu
    cases k with
    | zero =>
      have hd0 : d0 = d := by simpa using hk
      subst hd0
      rw [Nat.add_zero, applyDirectAux,
        applyDirectAux_get?_lt rest _ (i + 1) i (Nat.lt_succ_self i)]
      exact stepData_get?_push ss i d0 hd hhd hu
    | succ k2 =>
      have hk2 : rest.get? k2 = some d := by simpa using hk
      have harith : i + (k2 + 1) = (i + 1) + k2 := by omega
      rw [harith, applyDirectAux,
        ih (stepData ss i d0) (i + 1) k2 d hd hk2 hhd hu,
        stepData_get?_ne ss i ((i + 1) + k2) d0 (by omega)]

end Piped

/-- C3 counterexample: a resolved videoId with all three Piped mirrors
failing yields three synthetic fallback descriptors, all pointing at
indirect proxy-service URLs built from the videoId — more than the one
fallback entry the claim allows. -/
theorem c3_counterexample :
    Piped.pipedStreams "abc" none none none =
      [{ name := "Trailer (HD)", title := "Trailer HD",
         url := "https://pipedapi.kavin.rocks/streams/abc",
         type := "trailer", source := "youtube",
         behaviorHints := Piped.pipedHints },
       { name := "Trailer (Alternative)", title := "Trailer",
         url := "https://api.piped.projectsegfau.lt/streams/abc",
         type := "trailer", source := "youtube",
         behaviorHints := Piped.pipedHints },
       { name := "Trailer (Backup)", title := "Trailer",
         url := "https://watchapi.whatever.social/streams/abc",
         type := "trailer", source := "youtube",
         behaviorHints := Piped.pipedHints }] ∧
    1 < (Piped.pipedStreams "abc" none none none).length := by
  decide

/-- C3 amended: when zero backends return usable stream data the
Invidious-loop variant returns an empty list with no fallback entry,
while the Piped variant returns exactly three synthetic fallback
descriptors whose URLs are indirect proxy-service URLs built from the
videoId. -/
theorem c3_amended_fallback_count :
    (∀ l : List Invidious.BackendOutcome,
      (l.all fun o => !(Invidious.contributes o)) = true →
      Invidious.invidiousLoop l = []) ∧
    (∀ vid : String,
      Piped.pipedStreams vid none none none = Piped.defaultStreams vid ∧
      (Piped.defaultStreams vid).length = 3) :=
  ⟨fun _ h => Invidious.invidiousLoop_eq_nil_of_none h, fun _ => ⟨rfl, rfl⟩⟩

/-- C8: in the Piped variant, whenever a trailer videoId is resolved the
streams array has exactly three entries named "Trailer (HD)",
"Trailer (Alternative)" and "Trailer (Backup)", for every pattern of
backend successes and failures. -/
theorem c8_three_fixed_entries (vid : String)
    (r1 r2 r3 : Option Piped.PipedData) :
    (Piped.pipedStreams vid r1 r2 r3).map (fun s => s.name) =
      ["Trailer (HD)", "Trailer (Alternative)", "Trailer (Backup)"] ∧
    (Piped.pipedStreams vid r1 r2 r3).length = 3 := by
  have h := Piped.applyDirectAux_map_name
    (Piped.validResponses r1 r2 r3) (Piped.defaultStreams vid) 0
  constructor
  · rw [Piped.pipedStreams, h]; rfl
  · have h2 := congrArg List.length h
    simpa [Piped.pipedStreams] using h2

/-- C9: the direct-URL replacement writes the HD url of the k-th
fulfilled-and-valid backend response into the k-th entry of the fixed
streams array, regardless of which mirror the entry names: the k-th
output entry is the k-th default entry with only its url replaced. -/
theorem c9_positional_url_assignment (vid : String)
    (r1 r2 r3 : Option Piped.PipedData) (k : Nat) (d : Piped.PipedData)
    (hd : Piped.VideoStream)
    (hk : (Piped.validResponses r1 r2 r3).get? k = some d)
    (hhd : Piped.hdStream d = some hd) (hu : hd.url ≠ "") :
    (Piped.pipedStreams vid r1 r2 r3).get? k =
      ((Piped.defaultStreams vid).get? k).map
        (fun s => { s with url := hd.url }) := by
  have hu2 : (hd.url != "") = true := bne_iff_ne.mpr hu
  have h := Piped.applyDirectAux_get?_assign (Piped.validResponses r1 r2 r3)
    (Piped.defaultStreams vid) 0 k d hd hk hhd hu2
  simpa [Piped.pipedStreams] using h

/-- Witness for C9: the first mirror fails and the second succeeds with
a direct 720p URL; that URL is written into the first entry, the one
named "Trailer (HD)" that carries the first mirror's proxy URL. -/
theorem c9_positional_url_assignment_witness :
    (Piped.pipedStreams "abc" none
        (some ⟨[⟨"720p", "https://direct.example/v.mp4"⟩]⟩) none).get? 0 =
      some { name := "Trailer (HD)", title := "Trailer HD",
             url := "https://direct.example/v.mp4", type := "trailer",
             source := "youtube", behaviorHints := Piped.pipedHints } := by
  have h := c9_positional_url_assignment "abc" none
    (some ⟨[⟨"720p", "https://direct.example/v.mp4"⟩]⟩) none 0
    ⟨[⟨"720p", "https://direct.example/v.mp4"⟩]⟩
    ⟨"720p", "https://direct.example/v.mp4"⟩ (by decide) (by decide) (by decide)
  rw [h]
  rfl

/-- Resolution of the request id to a tmdbId, identical in the Invidious
and Piped stream handlers: an id starting with "tt" goes through
`getTmdbIdFromImdb` (whose per-request result is passed in as an
argument, null on lookup failure or missing API key); an id starting
with "tmdb:" has that prefix text removed (`id.replace("tmdb:", "")`);
any other id leaves tmdbId null. -/
def resolveTmdbId (idp : String) (tmdbFromImdb : Option String) :
    Option String :=
  if strStartsWith idp "tt" then tmdbFromImdb
  else if strStartsWith idp "tmdb:" then some (replaceFirst idp "tmdb:" "")
  else none

namespace Invidious

/-- The `/stream/:type/:id.json` handler of the Invidious variant:
reject a type other than "movie" with a 400 error; return empty streams
when the tmdbId is falsy or no trailer videoId is found; otherwise
return the streams collected by the instance loop.  All per-backend
failures are caught inside the loop, and the inner try/catch around the
loop also answers with an empty streams array. -/
def streamHandler (ty idp : String) (tmdbFromImdb : Option String)
    (videosResp : Option (List Tmdb.Video))
    (backends : List BackendOutcome) : HandlerResult StreamDescriptor :=
  if ty != "movie" then
    HandlerResult.badRequest "Only movie trailers are supported"
  else if !(jsTruthy (resolveTmdbId idp tmdbFromImdb)) then
    HandlerResult.ok []
  else
    match Tmdb.getTrailerResult videosResp with
    | none => HandlerResult.ok []
    | some vid =>
      if vid == "" then HandlerResult.ok []
      else HandlerResult.ok (invidiousLoop backends)

end Invidious

namespace Piped

/-- The `/stream/:type/:id.json` handler of the Piped variant: reject a
type other than "movie" or "series" with a 400 error; return empty
streams when the tmdbId is falsy or no trailer videoId is found;
otherwise return the fixed three-entry streams array after the
direct-URL replacement.  Promise.allSettled never rejects, so backend
failures cannot reach the outer catch. -/
def pipedHandler (ty idp : String) (tmdbFromImdb : Option String)
    (videosResp : Option (List Tmdb.Video))
    (r1 r2 r3 : Option PipedData) : HandlerResult StreamDescriptor :=
  if ty != "movie" && ty != "series" then
    HandlerResult.badRequest "Invalid request"
  else if !(jsTruthy (resolveTmdbId idp tmdbFromImdb)) then
    HandlerResult.ok []
  else
    match Tmdb.getTrailerResult videosResp with
    | none => HandlerResult.ok []
    | some vid =>
      if vid == "" then HandlerResult.ok []
      else HandlerResult.ok (pipedStreams vid r1 r2 r3)

end Piped

namespace Search

/-- Stream object of the YouTube-search variant:
`{ title: "Trailer", ytId: videoId }`. -/
structure YtStream where
  title : String
  ytId : String
deriving Repr, DecidableEq

/-- Outcome of the awaited `youtube.search.list` call: `failure` when
the call throws (reaching the handler's outer catch), `ok videoId`
when it returns, with `searchResponse.data.items[0]?.id.videoId`
possibly absent. -/
inductive SearchOutcome where
  | failure
  | ok (videoId : Option String)
deriving Repr, DecidableEq

/-- The searchQuery construction of the YouTube-search handler: a "tt"
id is used directly; a "tmdb:" id goes through getImdbIdFromTmdb and,
when that yields null, getTitleFromTmdb (both catch internally and
return null, passed in here as per-request results); any other id is
used as the title; searchQuery stays null only when both TMDB lookups
yield nothing. -/
def searchQuery (idp : String) (imdbFromTmdb titleFromTmdb : Option String) :
    Option String :=
  if strStartsWith idp "tt" then some (idp ++ " official trailer")
  else if strStartsWith idp "tmdb:" then
    match imdbFromTmdb with
    | some imdbId => some (imdbId ++ " official trailer")
    | none =>
      match titleFromTmdb with
      | some title => some (title ++ " official trailer")
      | none => none
  else some (idp ++ " official trailer")

/-- The `/stream/:type/:id.json` handler of the YouTube-search variant:
a missing YOUTUBE_API_KEY is answered with a 500 error body before
anything else; a type other than "movie" or "series" with a 400 error;
a null searchQuery or a missing videoId with empty streams; a throwing
search call falls through to the outer catch, which answers 500
`{ error: "Internal server error", details }` — with no streams field;
otherwise the single `{ title: "Trailer", ytId }` stream is returned. -/
def searchHandler (apiKeySet : Bool) (ty idp : String)
    (imdbFromTmdb titleFromTmdb : Option String) (search : SearchOutcome) :
    HandlerResult YtStream :=
  if !apiKeySet then
    HandlerResult.serverError "YouTube API key is not configured"
  else if ty != "movie" && ty != "series" then
    HandlerResult.badRequest "Invalid request"
  else
    match searchQuery idp imdbFromTmdb titleFromTmdb with
    | none => HandlerResult.ok []
    | some _ =>
      match search with
      | SearchOutcome.failure => HandlerResult.serverError "Internal server error"
      | SearchOutcome.ok none => HandlerResult.ok []
      | SearchOutcome.ok (some videoId) =>
        if videoId == "" then HandlerResult.ok []
        else HandlerResult.ok [{ title := "Trailer", ytId := videoId }]

theorem searchHandler_ok_of_settled (ty idp : String)
    (imdbFromTmdb titleFromTmdb vid : Option String)
    (hty : (ty != "movie" && ty != "series") = false) :
    ∃ s, searchHandler true ty idp imdbFromTmdb titleFromTmdb
      (SearchOutcome.ok vid) = HandlerResult.ok s := by
  unfold searchHandler
  split
  · next h => exact absurd h (by decide)
  · split
    · next h => rw [hty] at h; exact absurd h (by decide)
    · split
      · exact ⟨[], rfl⟩
      · cases vid with
        | none => exact ⟨[], rfl⟩
        | some v =>
          by_cases hv : (v == "") = true
          · refine ⟨[], ?_⟩
            show (if (v == "") = true then HandlerResult.ok ([] : List YtStream)
              else HandlerResult.ok [{ title := "Trailer", ytId := v }]) =
                HandlerResult.ok []
            rw [if_pos hv]
          · refine ⟨[{ title := "Trailer", ytId := v }], ?_⟩
            show (if (v == "") = true then HandlerResult.ok ([] : List YtStream)
              else HandlerResult.ok [{ title := "Trailer", ytId := v }]) =
                HandlerResult.ok [{ title := "Trailer", ytId := v }]
            rw [if_neg hv]

theorem searchHandler_failure_cases (ty idp : String)
    (imdbFromTmdb titleFromTmdb : Option String)
    (hty : (ty != "movie" && ty != "series") = false) :
    searchHandler true ty idp imdbFromTmdb titleFromTmdb
        SearchOutcome.failure =
      HandlerResult.serverError "Internal server error" ∨
    searchHandler true ty idp imdbFromTmdb titleFromTmdb
        SearchOutcome.failure = HandlerResult.ok [] := by
  unfold searchHandler
  split
  · next h => exact absurd h (by decide)
  · split
    · next h => rw [hty] at h; exact absurd h (by decide)
    · split
      · right; rfl
      · left; rfl

theorem searchHandler_no_key (ty idp : String)
    (imdbFromTmdb titleFromTmdb : Option String) (s0 : SearchOutcome) :
    searchHandler false ty idp imdbFromTmdb titleFromTmdb s0 =
      HandlerResult.serverError "YouTube API key is not configured" := rfl

end Search

/-- C6 counterexample: in the YouTube-search variant, a well-formed
movie request whose configured search backend call throws — the
all-backends-fail run the claim explicitly includes — is answered with
the 500 Internal-server-error body, a response with no streams field at
all; a well-formed movie request with the API key unset likewise gets a
500 error body with no streams field. -/
theorem c6_counterexample :
    Search.searchHandler true "movie" "tt0001" none none
        Search.SearchOutcome.failure =
      HandlerResult.serverError "Internal server error" ∧
    Search.searchHandler false "movie" "tt0001" none none
        (Search.SearchOutcome.ok (some "abc123")) =
      HandlerResult.serverError "YouTube API key is not configured" := by
  decide

/-- C6 amended: the Invidious-loop variant (movie requests only; series
is rejected with a 400 error) and the Piped variant (movie and series)
always answer a well-formed request with a streams field that is an
array, never null and never absent, and full backend failure yields the
empty array as a success response; the YouTube-search variant does so
only when the API key is configured and its search call returns — a
missing key yields a 500 error body without a streams field, and a
throwing search call yields either that 500 error body or, when no
search query was built, the empty streams array. -/
theorem c6_amended_streams_array (ty idp : String)
    (tmdbFromImdb : Option String) (videosResp : Option (List Tmdb.Video))
    (backends : List Invidious.BackendOutcome)
    (r1 r2 r3 : Option Piped.PipedData)
    (imdbFromTmdb titleFromTmdb vid : Option String)
    (s0 : Search.SearchOutcome) :
    (ty = "movie" →
      (∃ s, Invidious.streamHandler ty idp tmdbFromImdb videosResp backends =
        HandlerResult.ok s) ∧
      ((backends.all fun o => !(Invidious.contributes o)) = true →
        Invidious.streamHandler ty idp tmdbFromImdb videosResp backends =
          HandlerResult.ok [])) ∧
    (ty = "series" →
      Invidious.streamHandler ty idp tmdbFromImdb videosResp backends =
        HandlerResult.badRequest "Only movie trailers are supported") ∧
    (ty = "movie" ∨ ty = "series" →
      ∃ s, Piped.pipedHandler ty idp tmdbFromImdb videosResp r1 r2 r3 =
        HandlerResult.ok s) ∧
    (ty = "movie" ∨ ty = "series" →
      ∃ s, Search.searchHandler true ty idp imdbFromTmdb titleFromTmdb
        (Search.SearchOutcome.ok vid) = HandlerResult.ok s) ∧
    (ty = "movie" ∨ ty = "series" →
      Search.searchHandler true ty idp imdbFromTmdb titleFromTmdb
          Search.SearchOutcome.failure =
        HandlerResult.serverError "Internal server error" ∨
      Search.searchHandler true ty idp imdbFromTmdb titleFromTmdb
          Search.SearchOutcome.failure = HandlerResult.ok []) ∧
    Search.searchHandler false ty idp imdbFromTmdb titleFromTmdb s0 =
      HandlerResult.serverError "YouTube API key is not configured" := by
  refine ⟨?_, ?_, ?_, ?_, ?_, Search.searchHandler_no_key ty idp _ _ s0⟩
  · rintro rfl
    constructor
    · unfold Invidious.streamHandler
      split
      · next h => exact absurd h (by decide)
      · split
        · exact ⟨[], rfl⟩
        · split
          · exact ⟨[], rfl⟩
          · split
            · exact ⟨[], rfl⟩
            · exact ⟨_, rfl⟩
    · intro hall
      unfold Invidious.streamHandler
      split
      · next h => exact absurd h (by decide)
      · split
        · rfl
        · split
          · rfl
          · split
            · rfl
            · rw [Invidious.invidiousLoop_eq_nil_of_none hall]
  · rintro rfl
    unfold Invidious.streamHandler
    split
    · rfl
    · next h => exact absurd (by decide) h
  · intro hty
    rcases hty with rfl | rfl
    all_goals
      unfold Piped.pipedHandler
      split
      · next h => exact absurd h (by decide)
      · split
        · exact ⟨[], rfl⟩
        · split
          · exact ⟨[], rfl⟩
          · split
            · exact ⟨[], rfl⟩
            · exact ⟨_, rfl⟩
  · intro hty
    rcases hty with rfl | rfl
    · exact Search.searchHandler_ok_of_settled _ idp imdbFromTmdb
        titleFromTmdb vid (by decide)
    · exact Search.searchHandler_ok_of_settled _ idp imdbFromTmdb
        titleFromTmdb vid (by decide)
  · intro hty
    rcases hty with rfl | rfl
    · exact Search.searchHandler_failure_cases _ idp imdbFromTmdb
        titleFromTmdb (by decide)
    · exact Search.searchHandler_failure_cases _ idp imdbFromTmdb
        titleFromTmdb (by decide)
